import Mathlib

/-!
Verification development for the Sukoon Saarthi conversation session engine.

The definitions below are a shallow embedding of the JavaScript source:
`src/services/sessionService.js` (session store), `src/utils/messageBuilder.js`
(reply templates) and the webhook controller (`handleRegistrationFlow`,
`handleUserCommands`).  Timestamps are modelled as natural numbers (`moment()`
becomes an explicit `now` parameter; `moment().add(SESSION_TIMEOUT, 'minutes')`
becomes `now + SESSION_TIMEOUT`), the in-memory `sessionStore` object becomes an
association list keyed by phone number, JavaScript `null`/missing values become
`Option`, a thrown exception becomes an `Except.error` result, and JS truthiness
is modelled explicitly where the source relies on it (`!session.phoneNumber`,
`session.data[key] || null`, `language || 'en'`).
-/

/-- JavaScript-like scalar values stored in the session `data` bag. -/
inductive SVal where
  | vnull : SVal
  | vbool : Bool → SVal
  | vint : Int → SVal
  | vstr : String → SVal
deriving DecidableEq, Repr

/-- JS truthiness of a stored value: `null`, `false`, `0` and `""` are falsy. -/
def SVal.truthy : SVal → Bool
  | .vnull => false
  | .vbool b => b
  | .vint n => decide (n ≠ 0)
  | .vstr s => decide (s ≠ "")

/-- One conversation session, as built by `createSession` in
`sessionService.js`.  `phoneNumber` is an `Option` because `updateSession`
guards against objects lacking that key. -/
structure Session where
  id : Nat
  phoneNumber : Option String
  currentState : String
  data : List (String × SVal)
  registrationInProgress : Bool
  language : Option String
  createdAt : Nat
  updatedAt : Nat
  expiresAt : Nat
deriving DecidableEq, Repr

/-- The in-memory `sessionStore` object: an association list keyed by phone
number (JS object keys are unique; `storeSet` keeps that invariant). -/
abbrev Store := List (String × Session)

/-- Lookup `sessionStore[phoneNumber]`. -/
def storeGet (pn : String) : Store → Option Session
  | [] => none
  | e :: rest => if e.1 = pn then some e.2 else storeGet pn rest

/-- Assignment `sessionStore[phoneNumber] = session` (replace any previous
entry for that key). -/
def storeSet (st : Store) (pn : String) (s : Session) : Store :=
  (pn, s) :: st.filter (fun e => e.1 ≠ pn)

/-- `SESSION_TIMEOUT` from the source (default 30 minutes), in the abstract
time units of the embedding. -/
def SESSION_TIMEOUT : Nat := 30

/-- `createSession(phoneNumber)`: builds a fresh session in state `START` with
`registrationInProgress = false`, `language = null`, empty `data`, stamps
`createdAt`/`updatedAt` with the current time and `expiresAt` with
`now + SESSION_TIMEOUT`, and writes it to the store.  The generated uuid is
modelled by the explicit `sid` argument. -/
def createSession (now sid : Nat) (st : Store) (phoneNumber : String) :
    Session × Store :=
  let session : Session :=
    { id := sid
      phoneNumber := some phoneNumber
      currentState := "START"
      data := []
      registrationInProgress := false
      language := none
      createdAt := now
      updatedAt := now
      expiresAt := now + SESSION_TIMEOUT }
  (session, storeSet st phoneNumber session)

/-- `getOrCreateSession(phoneNumber)`: returns the stored session if present
and not expired (refreshing `updatedAt`/`expiresAt`); otherwise creates a new
one.  `moment().isAfter(expiresAt)` is the strict comparison
`session.expiresAt < now`. -/
def getOrCreateSession (now sid : Nat) (st : Store) (phoneNumber : String) :
    Session × Store :=
  match storeGet phoneNumber st with
  | some session =>
    if session.expiresAt < now then
      createSession now sid st phoneNumber
    else
      let s' := { session with
                    expiresAt := now + SESSION_TIMEOUT
                    updatedAt := now }
      (s', storeSet st phoneNumber s')
  | none => createSession now sid st phoneNumber

/-- `updateSession(session)`: throws `new Error('Invalid session object')` when
`!session || !session.phoneNumber` (missing object, missing key, or empty —
JS-falsy — string); otherwise refreshes `updatedAt`/`expiresAt` and writes the
session back under its phone number.  The store component is returned unchanged
on the throwing paths. -/
def updateSession (now : Nat) (st : Store) (s? : Option Session) :
    Except String Session × Store :=
  match s? with
  | none => (Except.error "Invalid session object", st)
  | some session =>
    match session.phoneNumber with
    | none => (Except.error "Invalid session object", st)
    | some pn =>
      if pn = "" then (Except.error "Invalid session object", st)
      else
        let s' := { session with
                      updatedAt := now
                      expiresAt := now + SESSION_TIMEOUT }
        (Except.ok s', storeSet st pn s')

/-- Association-list access for the session `data` bag. -/
def dataGet (key : String) : List (String × SVal) → Option SVal
  | [] => none
  | e :: rest => if e.1 = key then some e.2 else dataGet key rest

/-- Assignment `session.data[key] = value`. -/
def dataSet (d : List (String × SVal)) (key : String) (v : SVal) :
    List (String × SVal) :=
  (key, v) :: d.filter (fun e => e.1 ≠ key)

/-- `setSessionData(phoneNumber, key, value)`: get-or-create the session, set
`data[key]`, then `updateSession`. -/
def setSessionData (now sid : Nat) (st : Store) (phoneNumber key : String)
    (value : SVal) : Except String Session × Store :=
  let r := getOrCreateSession now sid st phoneNumber
  let s1 := { r.1 with data := dataSet r.1.data key value }
  updateSession now r.2 (some s1)

/-- `getSessionData(phoneNumber, key)`: get-or-create the session and return
`session.data[key] || null` — the stored value when truthy, otherwise null. -/
def getSessionData (now sid : Nat) (st : Store) (phoneNumber key : String) :
    SVal × Store :=
  let r := getOrCreateSession now sid st phoneNumber
  match dataGet key r.1.data with
  | none => (SVal.vnull, r.2)
  | some v => (if v.truthy then v else SVal.vnull, r.2)

/-- `cleanupExpiredSessions()`: scans the store, deletes every session whose
`expiresAt` has passed (`now.isAfter(expiresAt)`, i.e. `expiresAt < now`) and
returns the number removed together with the surviving store. -/
def cleanupExpiredSessions (now : Nat) : Store → Nat × Store
  | [] => (0, [])
  | e :: rest =>
    let r := cleanupExpiredSessions now rest
    if e.2.expiresAt < now then (r.1 + 1, r.2) else (r.1, e :: r.2)

/-- JS `String.prototype.trim()`, modelled on the character list. -/
def jsTrim (s : String) : String :=
  String.mk
    (((s.data.dropWhile Char.isWhitespace).reverse.dropWhile
        Char.isWhitespace).reverse)

/-- JS `String.prototype.toLowerCase()` (ASCII case mapping). -/
def jsToLower (s : String) : String := String.mk (s.data.map Char.toLower)

/-- The normalization `message.trim().toLowerCase()` used by the handlers. -/
def jsTrimLower (s : String) : String := jsToLower (jsTrim s)

/-- JS `String.prototype.startsWith(p)`. -/
def jsStartsWith (s p : String) : Bool := p.data.isPrefixOf s.data

/-- JS `expr || fallback` on an optional string: the fallback replaces a
missing or empty (falsy) value. -/
def jsOrElse (v : Option String) (fallback : String) : String :=
  match v with
  | some s => if s = "" then fallback else s
  | none => fallback

/-- The call-site idiom `language || 'en'`. -/
def jsOrEn (language : Option String) : String :=
  match language with
  | some s => if s = "" then "en" else s
  | none => "en"

/-- One language's entry of the `messages` catalog in `messageBuilder.js`
(the fields the session engine uses). -/
structure MessageSet where
  language_selection : String
  language_selection_error : String
  age_question : String
  age_error : String
  main_menu : String
  help_menu : String
  not_implemented : String
  generic_error : String
  medication_add_start : String
deriving DecidableEq, Repr

/-- English messages from `messageBuilder.js`. -/
def messages_en : MessageSet :=
  { language_selection :=
      "Please select your preferred language:\n\n1. English\n2. हिंदी (Hindi)"
    language_selection_error :=
      "I didn\x27t understand that choice. Please select a language:\n\n1. English\n2. हिंदी (Hindi)"
    age_question := "Great! Now, please tell me your age in years."
    age_error := "Please enter a valid age between 1 and 120."
    main_menu :=
      "What would you like to do today?\n\n1. Manage Medications 💊\n2. Track Health 📈\n3. View Reports 📋\n4. Family Settings 👪\n5. Help"
    help_menu :=
      "Here\x27s how I can help you:\n\n• Add medication: Type \x27add medication\x27\n• Check schedule: Type \x27schedule\x27\n• Record health: Type \x27health\x27\n• Family access: Type \x27family\x27\n• Talk to support: Type \x27support\x27"
    not_implemented := "This feature is coming soon! Thank you for your patience."
    generic_error :=
      "I\x27m sorry, I couldn\x27t process that. Please try again or type \x27help\x27 for assistance."
    medication_add_start :=
      "Let\x27s add a new medication. You can either:\n\n1. Take a photo of your prescription\n2. Enter medication details manually" }

/-- Hindi messages from `messageBuilder.js`. -/
def messages_hi : MessageSet :=
  { language_selection :=
      "कृपया अपनी पसंदीदा भाषा चुनें:\n\n1. English\n2. हिंदी"
    language_selection_error :=
      "मैं उस विकल्प को नहीं समझा। कृपया एक भाषा चुनें:\n\n1. English\n2. हिंदी"
    age_question := "बढ़िया! अब, कृपया मुझे अपनी उम्र वर्षों में बताएं।"
    age_error := "कृपया 1 से 120 के बीच एक वैध उम्र दर्ज करें।"
    main_menu :=
      "आज आप क्या करना चाहेंगे?\n\n1. दवाएं प्रबंधित करें 💊\n2. स्वास्थ्य ट्रैक करें 📈\n3. रिपोर्ट देखें 📋\n4. परिवार सेटिंग्स 👪\n5. मदद"
    help_menu :=
      "मैं आपकी इस प्रकार मदद कर सकता हूं:\n\n• दवा जोड़ें: \x27दवा जोड़ें\x27 टाइप करें\n• शेड्यूल जांचें: \x27शेड्यूल\x27 टाइप करें\n• स्वास्थ्य रिकॉर्ड करें: \x27स्वास्थ्य\x27 टाइप करें\n• परिवार पहुंच: \x27परिवार\x27 टाइप करें\n• सहायता से बात करें: \x27सहायता\x27 टाइप करें"
    not_implemented := "यह सुविधा जल्द ही आ रही है! आपके धैर्य के लिए धन्यवाद।"
    generic_error :=
      "मुझे खेद है, मैं उसे प्रोसेस नहीं कर सका। कृपया फिर से प्रयास करें या सहायता के लिए \x27मदद\x27 टाइप करें।"
    medication_add_start :=
      "चलिए एक नई दवा जोड़ते हैं। आप या तो:\n\n1. अपने नुस्खे की एक फोटो ले सकते हैं\n2. दवा विवरण मैन्युअल रूप से दर्ज कर सकते हैं" }

/-- The `messages[language]` lookup: the catalog has exactly the keys `en`
and `hi`; any other (or missing) language yields `undefined`. -/
def messagesFor : Option String → Option MessageSet
  | some "en" => some messages_en
  | some "hi" => some messages_hi
  | _ => none

/-- `buildLanguageSelection(isError = false)`. -/
def buildLanguageSelection (isError : Bool) : String :=
  if isError then messages_en.language_selection_error
  else messages_en.language_selection

/-- `buildAgeQuestion(language)`: `messages[language]?.age_question ||
messages.en.age_question`. -/
def buildAgeQuestion (language : Option String) : String :=
  jsOrElse ((messagesFor language).map MessageSet.age_question)
    messages_en.age_question

/-- `buildMainMenu(language)`. -/
def buildMainMenu (language : Option String) : String :=
  jsOrElse ((messagesFor language).map MessageSet.main_menu)
    messages_en.main_menu

/-- `buildHelpMenu(language)`. -/
def buildHelpMenu (language : Option String) : String :=
  jsOrElse ((messagesFor language).map MessageSet.help_menu)
    messages_en.help_menu

/-- `buildGenericError(language)`. -/
def buildGenericError (language : Option String) : String :=
  jsOrElse ((messagesFor language).map MessageSet.generic_error)
    messages_en.generic_error

/-- `buildNotImplementedYet(language)`. -/
def buildNotImplementedYet (language : Option String) : String :=
  jsOrElse ((messagesFor language).map MessageSet.not_implemented)
    messages_en.not_implemented

/-- `buildMedicationAddStart(language)`. -/
def buildMedicationAddStart (language : Option String) : String :=
  jsOrElse ((messagesFor language).map MessageSet.medication_add_start)
    messages_en.medication_add_start

/-- The domain user record, as consulted by the webhook controller (only the
`language` field matters to the dispatcher). -/
structure User where
  id : Nat
  language : Option String
deriving DecidableEq, Repr

/-- The registration sub-flow `handleRegistrationFlow(session, message)` from
the webhook controller: a switch on `session.currentState`.  Note the source
has cases only for `REGISTRATION_START` and `REGISTRATION_LANGUAGE`; every
other state (including `REGISTRATION_AGE`) hits the default branch, which
returns the generic error and leaves session and store untouched.  The result
pairs the (possibly throwing) reply-and-session outcome with the store. -/
def handleRegistrationFlow (now : Nat) (st : Store) (session : Session)
    (message : String) : Except String (String × Session) × Store :=
  if session.currentState = "REGISTRATION_START" then
    let s1 := { session with currentState := "REGISTRATION_LANGUAGE" }
    match updateSession now st (some s1) with
    | (Except.ok s2, st2) => (Except.ok (buildLanguageSelection false, s2), st2)
    | (Except.error e, st2) => (Except.error e, st2)
  else if session.currentState = "REGISTRATION_LANGUAGE" then
    let languageChoice := jsTrimLower message
    if languageChoice = "1" ∨ languageChoice = "english" then
      let s1 := { session with
                    language := some "en"
                    currentState := "REGISTRATION_AGE" }
      match updateSession now st (some s1) with
      | (Except.ok s2, st2) => (Except.ok (buildAgeQuestion s2.language, s2), st2)
      | (Except.error e, st2) => (Except.error e, st2)
    else if languageChoice = "2" ∨ languageChoice = "hindi" then
      let s1 := { session with
                    language := some "hi"
                    currentState := "REGISTRATION_AGE" }
      match updateSession now st (some s1) with
      | (Except.ok s2, st2) => (Except.ok (buildAgeQuestion s2.language, s2), st2)
      | (Except.error e, st2) => (Except.error e, st2)
    else
      (Except.ok (buildLanguageSelection true, session), st)
  else
    (Except.ok (buildGenericError (some (jsOrEn session.language)), session), st)

/-- The command dispatcher `handleUserCommands(user, session, message,
phoneNumber)` from the webhook controller.  A message with the literal
`for:` marker is answered with the not-implemented template (the proxy
handling is a stub in the source); otherwise the trimmed, lowercased text is
switched over a fixed command table, with the main menu as the default. -/
def handleUserCommands (now : Nat) (st : Store) (user : User)
    (session : Session) (message : String) :
    Except String (String × Session) × Store :=
  if jsStartsWith message "for:" then
    (Except.ok (buildNotImplementedYet (some (jsOrEn user.language)), session),
      st)
  else
    let command := jsTrimLower message
    if command = "help" then
      (Except.ok (buildHelpMenu (some (jsOrEn user.language)), session), st)
    else if command = "add medication" ∨ command = "med" ∨ command = "1" then
      let s1 := { session with currentState := "MEDICATION_ADD_START" }
      match updateSession now st (some s1) with
      | (Except.ok s2, st2) =>
        (Except.ok (buildMedicationAddStart (some (jsOrEn user.language)), s2),
          st2)
      | (Except.error e, st2) => (Except.error e, st2)
    else
      (Except.ok (buildMainMenu (some (jsOrEn user.language)), session), st)

/-- Well-formedness of the session store: each entry is keyed by the phone
number recorded inside the session, as every write in the source does. -/
def StoreWF (st : Store) : Prop := ∀ e ∈ st, e.2.phoneNumber = some e.1

/-- Concrete session sitting in the `REGISTRATION_AGE` state, with a language
already captured in `data`. -/
def ageSession : Session :=
  { id := 1, phoneNumber := some "9990001111",
    currentState := "REGISTRATION_AGE",
    data := [("language", SVal.vstr "en")],
    registrationInProgress := true, language := some "en",
    createdAt := 0, updatedAt := 0, expiresAt := 30 }

/-- Concrete session sitting in the `REGISTRATION_LANGUAGE` state. -/
def langSession : Session :=
  { id := 4, phoneNumber := some "9990003333",
    currentState := "REGISTRATION_LANGUAGE", data := [],
    registrationInProgress := true, language := none,
    createdAt := 0, updatedAt := 0, expiresAt := 30 }

/-- Concrete registered user. -/
def opUser : User := { id := 7, language := some "en" }

/-- Concrete operational session of a registered user. -/
def opSession : Session :=
  { id := 2, phoneNumber := some "9990002222", currentState := "IDLE",
    data := [], registrationInProgress := false, language := some "en",
    createdAt := 0, updatedAt := 0, expiresAt := 30 }

/-- Concrete session last stamped at time 0. -/
def staleSession : Session :=
  { id := 5, phoneNumber := some "9990005555", currentState := "IDLE",
    data := [], registrationInProgress := false, language := none,
    createdAt := 0, updatedAt := 0, expiresAt := 30 }

/-- Concrete store whose two sessions have both expired by time 100. -/
def expiredStore : Store :=
  [("9990007777",
    { id := 11, phoneNumber := some "9990007777", currentState := "START",
      data := [], registrationInProgress := false, language := none,
      createdAt := 0, updatedAt := 0, expiresAt := 30 }),
   ("9990008888",
    { id := 12, phoneNumber := some "9990008888", currentState := "IDLE",
      data := [], registrationInProgress := false, language := some "hi",
      createdAt := 2, updatedAt := 2, expiresAt := 32 })]

/-- Concrete session whose `phoneNumber` key is present but empty. -/
def emptyPhoneSession : Session :=
  { id := 3, phoneNumber := some "", currentState := "IDLE", data := [],
    registrationInProgress := false, language := none,
    createdAt := 0, updatedAt := 0, expiresAt := 30 }

/-- Concrete registered user with no language set. -/
def menuUser : User := { id := 8, language := none }

/-- Concrete idle operational session. -/
def idleSession : Session :=
  { id := 6, phoneNumber := some "9990009999", currentState := "IDLE",
    data := [], registrationInProgress := false, language := none,
    createdAt := 0, updatedAt := 0, expiresAt := 30 }

theorem storeGet_mem {pn : String} {st : Store} {s : Session}
    (h : storeGet pn st = some s) : (pn, s) ∈ st := by
  induction st with
  | nil => simp [storeGet] at h
  | cons e rest ih =>
    rw [storeGet] at h
    by_cases he : e.1 = pn
    · rw [if_pos he] at h
      obtain rfl : e.2 = s := Option.some.inj h
      obtain ⟨e1, e2⟩ := e
      cases he
      exact List.mem_cons_self _ _
    · rw [if_neg he] at h
      exact List.mem_cons_of_mem e (ih h)

theorem storeGet_storeSet (st : Store) (pn : String) (s : Session) :
    storeGet pn (storeSet st pn s) = some s := by
  simp [storeGet, storeSet]

theorem dataGet_dataSet (d : List (String × SVal)) (key : String) (v : SVal) :
    dataGet key (dataSet d key v) = some v := by
  simp [dataGet, dataSet]

theorem getOrCreate_phone (now sid : Nat) (st : Store) (pn : String)
    (hwf : StoreWF st) :
    (getOrCreateSession now sid st pn).1.phoneNumber = some pn := by
  rcases hg : storeGet pn st with _ | s
  · simp [getOrCreateSession, hg, createSession]
  · by_cases hexp : s.expiresAt < now
    · simp [getOrCreateSession, hg, hexp, createSession]
    · simp [getOrCreateSession, hg, hexp]
      exact hwf (pn, s) (storeGet_mem hg)

theorem cleanup_count_eq (now : Nat) (st : Store) :
    (cleanupExpiredSessions now st).1 =
      (st.filter (fun e => decide (e.2.expiresAt < now))).length := by
  induction st with
  | nil => rfl
  | cons e rest ih =>
    by_cases hc : e.2.expiresAt < now <;>
      simp [cleanupExpiredSessions, List.filter_cons, hc, ih]

theorem cleanup_store_eq (now : Nat) (st : Store) :
    (cleanupExpiredSessions now st).2 =
      st.filter (fun e => !decide (e.2.expiresAt < now)) := by
  induction st with
  | nil => rfl
  | cons e rest ih =>
    by_cases hc : e.2.expiresAt < now <;>
      simp [cleanupExpiredSessions, List.filter_cons, hc, ih]

theorem cleanup_none_expired (now : Nat) (st : Store)
    (h : ∀ e ∈ st, ¬ e.2.expiresAt < now) :
    cleanupExpiredSessions now st = (0, st) := by
  induction st with
  | nil => rfl
  | cons e rest ih =>
    have he : ¬ e.2.expiresAt < now := h e (List.mem_cons_self e rest)
    have hr : cleanupExpiredSessions now rest = (0, rest) :=
      ih (fun x hx => h x (List.mem_cons_of_mem e hx))
    simp [cleanupExpiredSessions, he, hr]

/-- Claim C1: in state `REGISTRATION_LANGUAGE`, input normalizing to `1` or
`english` sets the language to `en` and moves to `REGISTRATION_AGE`; input
normalizing to `2` or `hindi` sets it to `hi` and moves to
`REGISTRATION_AGE`; any other input leaves the session (state and language)
untouched and replies with the language-selection error prompt. -/
theorem registration_language_transition (now : Nat) (st : Store) (s : Session)
    (m : String) (pn : String)
    (hs : s.currentState = "REGISTRATION_LANGUAGE")
    (hp : s.phoneNumber = some pn) (hpn : pn ≠ "") :
    ((jsTrimLower m = "1" ∨ jsTrimLower m = "english") →
      ∃ s2 st2,
        handleRegistrationFlow now st s m =
          (Except.ok (buildAgeQuestion (some "en"), s2), st2) ∧
        s2.language = some "en" ∧ s2.currentState = "REGISTRATION_AGE")
    ∧ ((jsTrimLower m = "2" ∨ jsTrimLower m = "hindi") →
      ∃ s2 st2,
        handleRegistrationFlow now st s m =
          (Except.ok (buildAgeQuestion (some "hi"), s2), st2) ∧
        s2.language = some "hi" ∧ s2.currentState = "REGISTRATION_AGE")
    ∧ (jsTrimLower m ≠ "1" → jsTrimLower m ≠ "english" →
       jsTrimLower m ≠ "2" → jsTrimLower m ≠ "hindi" →
      handleRegistrationFlow now st s m =
        (Except.ok (buildLanguageSelection true, s), st)) := by
  refine ⟨?_, ?_, ?_⟩
  · rintro (h | h) <;>
      simp [handleRegistrationFlow, updateSession, hs, hp, hpn, h,
        buildAgeQuestion, messagesFor, jsOrElse, messages_en]
  · rintro (h | h) <;>
      simp [handleRegistrationFlow, updateSession, hs, hp, hpn, h,
        buildAgeQuestion, messagesFor, jsOrElse, messages_hi]
  · intro h1 h2 h3 h4
    simp [handleRegistrationFlow, hs, h1, h2, h3, h4]

theorem registration_language_transition_witness :
    ∃ s2 st2,
      handleRegistrationFlow 5 [] langSession "english" =
        (Except.ok (buildAgeQuestion (some "en"), s2), st2) ∧
      s2.language = some "en" ∧ s2.currentState = "REGISTRATION_AGE" :=
  (registration_language_transition 5 [] langSession "english" "9990003333"
      rfl rfl (by decide)).1 (Or.inr (by decide))

/-- Claim C2 (counterexample): the source has no `REGISTRATION_AGE` case, so
the valid age `25` does not advance the session or store an age — it falls to
the default branch, which leaves the session in `REGISTRATION_AGE` and replies
with the generic error, not the age-range error. -/
theorem registration_age_counterexample :
    handleRegistrationFlow 5 [] ageSession "25" =
      (Except.ok (messages_en.generic_error, ageSession), []) ∧
    ageSession.currentState = "REGISTRATION_AGE" ∧
    messages_en.generic_error ≠ messages_en.age_error := by
  refine ⟨rfl, rfl, by decide⟩

/-- Claim C2 (amended): in state `REGISTRATION_AGE` every inbound text —
valid age or not — leaves the session and the store completely unchanged and
replies with the generic error in the session language (default `en`); in
particular replaying any input never changes the state or the stored
language. -/
theorem registration_age_stuck (now : Nat) (st : Store) (s : Session)
    (m : String) (hs : s.currentState = "REGISTRATION_AGE") :
    handleRegistrationFlow now st s m =
      (Except.ok (buildGenericError (some (jsOrEn s.language)), s), st) := by
  simp [handleRegistrationFlow, hs]

theorem registration_age_stuck_witness :
    handleRegistrationFlow 5 [] ageSession "25" =
      (Except.ok
        (buildGenericError (some (jsOrEn ageSession.language)), ageSession),
        []) :=
  registration_age_stuck 5 [] ageSession "25" rfl

/-- Claim C3 (counterexample): the dispatcher answers `for:Mom taken` with
the constant not-implemented template and gives exactly the same result for a
message with a different target and inner command, so no target name or inner
command is extracted or routed (the proxy branch is a stub). -/
theorem proxy_command_counterexample :
    handleUserCommands 5 [] opUser opSession "for:Mom taken" =
      (Except.ok (messages_en.not_implemented, opSession), []) ∧
    handleUserCommands 5 [] opUser opSession "for:Mom taken" =
      handleUserCommands 5 [] opUser opSession "for:Dad help" := ⟨rfl, rfl⟩

/-- Claim C3 (amended): a message of an operational user that begins with the
literal marker `for:` is recognized by that marker alone and answered with the
not-implemented template in the user language (default `en`); the caller
session and the store are unchanged, and nothing after the marker is parsed. -/
theorem proxy_command_stub (now : Nat) (st : Store) (user : User)
    (s : Session) (m : String) (hfor : jsStartsWith m "for:" = true) :
    handleUserCommands now st user s m =
      (Except.ok (buildNotImplementedYet (some (jsOrEn user.language)), s),
        st) := by
  simp [handleUserCommands, hfor]

theorem proxy_command_stub_witness :
    handleUserCommands 5 [] opUser opSession "for:Mom taken" =
      (Except.ok
        (buildNotImplementedYet (some (jsOrEn opUser.language)), opSession),
        []) :=
  proxy_command_stub 5 [] opUser opSession "for:Mom taken" (by decide)

/-- Claim C4: when no session is stored for the phone number, or the stored
one has expired, `getOrCreateSession` returns exactly a freshly created
session: state `START`, `registrationInProgress = false`, `language = null`,
empty `data`. -/
theorem getOrCreate_fresh_after_expiry (now sid : Nat) (st : Store)
    (pn : String)
    (h : storeGet pn st = none ∨
      ∃ s, storeGet pn st = some s ∧ s.expiresAt < now) :
    getOrCreateSession now sid st pn = createSession now sid st pn ∧
    (getOrCreateSession now sid st pn).1.currentState = "START" ∧
    (getOrCreateSession now sid st pn).1.registrationInProgress = false ∧
    (getOrCreateSession now sid st pn).1.language = none ∧
    (getOrCreateSession now sid st pn).1.data = [] := by
  have hmain : getOrCreateSession now sid st pn =
      createSession now sid st pn := by
    rcases h with h | ⟨s, hg, hexp⟩
    · simp [getOrCreateSession, h]
    · simp [getOrCreateSession, hg, hexp]
  exact ⟨hmain, by rw [hmain]; rfl, by rw [hmain]; rfl, by rw [hmain]; rfl,
    by rw [hmain]; rfl⟩

theorem getOrCreate_fresh_after_expiry_witness :
    getOrCreateSession 0 1 [] "9990004444" = createSession 0 1 [] "9990004444" ∧
    (getOrCreateSession 0 1 [] "9990004444").1.currentState = "START" ∧
    (getOrCreateSession 0 1 [] "9990004444").1.registrationInProgress = false ∧
    (getOrCreateSession 0 1 [] "9990004444").1.language = none ∧
    (getOrCreateSession 0 1 [] "9990004444").1.data = [] :=
  getOrCreate_fresh_after_expiry 0 1 [] "9990004444" (Or.inl rfl)

/-- Claim C5: a successful `updateSession` call strictly increases both
`updatedAt` and `expiresAt`, given that time has advanced since the session
was last stamped and the stored timestamps satisfy the documented invariant
`expiresAt = updatedAt + SESSION_TIMEOUT`. -/
theorem update_strictly_advances (now : Nat) (st : Store) (s : Session)
    (pn : String) (hp : s.phoneNumber = some pn) (hpn : pn ≠ "")
    (hclock : s.updatedAt < now)
    (hinv : s.expiresAt = s.updatedAt + SESSION_TIMEOUT) :
    ∃ s2 st2, updateSession now st (some s) = (Except.ok s2, st2) ∧
      s.updatedAt < s2.updatedAt ∧ s.expiresAt < s2.expiresAt := by
  have hupd : updateSession now st (some s) =
      (Except.ok { s with updatedAt := now,
                          expiresAt := now + SESSION_TIMEOUT },
        storeSet st pn { s with updatedAt := now,
                                expiresAt := now + SESSION_TIMEOUT }) := by
    simp [updateSession, hp, hpn]
  refine ⟨_, _, hupd, ?_, ?_⟩
  · simpa using hclock
  · rw [hinv]
    simpa using Nat.add_lt_add_right hclock SESSION_TIMEOUT

theorem update_strictly_advances_witness :
    ∃ s2 st2, updateSession 10 [] (some staleSession) = (Except.ok s2, st2) ∧
      staleSession.updatedAt < s2.updatedAt ∧
      staleSession.expiresAt < s2.expiresAt :=
  update_strictly_advances 10 [] staleSession "9990005555" rfl (by decide)
    (by decide) (by decide)

/-- Claim C6: the sweep removes exactly the sessions whose `expiresAt` has
passed and returns their count — the survivors are exactly the not-yet-expired
entries, an immediate second sweep removes nothing, and when every stored
session has expired the sweep removes all of them and returns the full
count. -/
theorem sweepExpired_exact (now : Nat) (st : Store) :
    (cleanupExpiredSessions now st).1 =
      (st.filter (fun e => decide (e.2.expiresAt < now))).length ∧
    (cleanupExpiredSessions now st).2 =
      st.filter (fun e => !decide (e.2.expiresAt < now)) ∧
    cleanupExpiredSessions now (cleanupExpiredSessions now st).2 =
      (0, (cleanupExpiredSessions now st).2) ∧
    ((∀ e ∈ st, e.2.expiresAt < now) →
      (cleanupExpiredSessions now st).1 = st.length ∧
      (cleanupExpiredSessions now st).2 = []) := by
  refine ⟨cleanup_count_eq now st, cleanup_store_eq now st, ?_, ?_⟩
  · refine cleanup_none_expired now _ (fun e he => ?_)
    rw [cleanup_store_eq] at he
    have := List.of_mem_filter he
    simpa using this
  · intro hall
    constructor
    · rw [cleanup_count_eq]
      have : st.filter (fun e => decide (e.2.expiresAt < now)) = st :=
        List.filter_eq_self.mpr (fun a ha => by simpa using hall a ha)
      rw [this]
    · rw [cleanup_store_eq]
      exact List.filter_eq_nil_iff.mpr (fun a ha => by simpa using hall a ha)

theorem sweepExpired_exact_witness :
    (cleanupExpiredSessions 100 expiredStore).1 = expiredStore.length ∧
    (cleanupExpiredSessions 100 expiredStore).2 = [] :=
  (sweepExpired_exact 100 expiredStore).2.2.2 (by decide)

/-- Claim C7 (counterexample): a session whose `phoneNumber` key is present
but holds the empty string is rejected by `updateSession` all the same, so the
error is not raised only when the key is missing. -/
theorem update_empty_phone_counterexample :
    emptyPhoneSession.phoneNumber = some "" ∧
    updateSession 5 [] (some emptyPhoneSession) =
      (Except.error "Invalid session object", []) := ⟨rfl, rfl⟩

/-- Claim C7 (amended): `updateSession` fails with the invalid-session error
exactly when the session object is absent or its `phoneNumber` is missing or
empty (JS-falsy), and on every failing call the store is left unchanged. -/
theorem update_invalid_iff (now : Nat) (st : Store) (s? : Option Session) :
    ((∃ e, (updateSession now st s?).1 = Except.error e) ↔
      (s? = none ∨ ∃ s, s? = some s ∧
        (s.phoneNumber = none ∨ s.phoneNumber = some ""))) ∧
    ((∃ e, (updateSession now st s?).1 = Except.error e) →
      (updateSession now st s?).2 = st) := by
  rcases s? with _ | s
  · simp [updateSession]
  · rcases hp : s.phoneNumber with _ | pn
    · simp [updateSession, hp]
    · by_cases hpn : pn = ""
      · subst hpn
        simp [updateSession, hp]
      · simp [updateSession, hp, hpn]

theorem update_invalid_iff_witness :
    (∃ e, (updateSession 5 [] (none : Option Session)).1 = Except.error e) ∧
    (updateSession 5 [] (none : Option Session)).2 = [] := by
  have h := update_invalid_iff 5 [] (none : Option Session)
  exact ⟨h.1.mpr (Or.inl rfl), h.2 (h.1.mpr (Or.inl rfl))⟩

/-- Claim C8: for a registered user, any inbound message that is not a proxy
marker and whose normalized text matches no command-table entry is answered —
never thrown on — with the main menu in the user language; when the user
language is unset the English main menu is used. -/
theorem dispatcher_unmatched_main_menu (now : Nat) (st : Store) (user : User)
    (s : Session) (m : String)
    (hfor : jsStartsWith m "for:" = false)
    (h1 : jsTrimLower m ≠ "help") (h2 : jsTrimLower m ≠ "add medication")
    (h3 : jsTrimLower m ≠ "med") (h4 : jsTrimLower m ≠ "1") :
    handleUserCommands now st user s m =
      (Except.ok (buildMainMenu (some (jsOrEn user.language)), s), st) ∧
    (user.language = none →
      handleUserCommands now st user s m =
        (Except.ok (messages_en.main_menu, s), st)) := by
  have hmain : handleUserCommands now st user s m =
      (Except.ok (buildMainMenu (some (jsOrEn user.language)), s), st) := by
    simp [handleUserCommands, hfor, h1, h2, h3, h4]
  refine ⟨hmain, fun hl => ?_⟩
  rw [hmain, hl]
  rfl

theorem dispatcher_unmatched_main_menu_witness :
    handleUserCommands 5 [] menuUser idleSession "banana" =
      (Except.ok (messages_en.main_menu, idleSession), []) :=
  (dispatcher_unmatched_main_menu 5 [] menuUser idleSession "banana"
      (by decide) (by decide) (by decide) (by decide) (by decide)).2 rfl

/-- Claim C9: the dispatcher treats `1`, `med` and `add medication`
identically — all three calls are literally equal, and (for a session with a
usable phone number) they transition the session to `MEDICATION_ADD_START`
with the medication-add reply. -/
theorem menu_aliases_identical (now : Nat) (st : Store) (user : User)
    (s : Session) (pn : String)
    (hp : s.phoneNumber = some pn) (hpn : pn ≠ "") :
    handleUserCommands now st user s "1" =
      handleUserCommands now st user s "med" ∧
    handleUserCommands now st user s "med" =
      handleUserCommands now st user s "add medication" ∧
    ∃ s2 st2, handleUserCommands now st user s "1" =
      (Except.ok (buildMedicationAddStart (some (jsOrEn user.language)), s2),
        st2) ∧
      s2.currentState = "MEDICATION_ADD_START" := by
  refine ⟨rfl, rfl, ?_⟩
  simp [handleUserCommands, updateSession, hp, hpn, jsStartsWith, jsTrimLower,
    jsTrim, jsToLower]

theorem menu_aliases_identical_witness :
    handleUserCommands 5 [] menuUser idleSession "1" =
      handleUserCommands 5 [] menuUser idleSession "med" ∧
    handleUserCommands 5 [] menuUser idleSession "med" =
      handleUserCommands 5 [] menuUser idleSession "add medication" ∧
    ∃ s2 st2, handleUserCommands 5 [] menuUser idleSession "1" =
      (Except.ok
        (buildMedicationAddStart (some (jsOrEn menuUser.language)), s2), st2) ∧
      s2.currentState = "MEDICATION_ADD_START" :=
  menu_aliases_identical 5 [] menuUser idleSession "9990009999" rfl (by decide)

/-- Claim C10: storing a falsy value (`0`, `false`, `""`) under a key and
reading it back yields null, because `getSessionData` returns the stored
value only when it is truthy — so set followed by get is not a round trip for
falsy values. -/
theorem get_after_set_falsy (now sid sid2 : Nat) (st : Store)
    (pn key : String) (v : SVal) (hpn : pn ≠ "") (hwf : StoreWF st)
    (hv : v.truthy = false) :
    ∃ s2 st2, setSessionData now sid st pn key v = (Except.ok s2, st2) ∧
      (getSessionData now sid2 st2 pn key).1 = SVal.vnull ∧
      (v ≠ SVal.vnull → (getSessionData now sid2 st2 pn key).1 ≠ v) := by
  have hphone := getOrCreate_phone now sid st pn hwf
  set r := getOrCreateSession now sid st pn with hr
  set s1 : Session := { r.1 with data := dataSet r.1.data key v } with hs1
  have hs1p : s1.phoneNumber = some pn := by rw [hs1]; exact hphone
  set s2 : Session := { s1 with updatedAt := now,
                                expiresAt := now + SESSION_TIMEOUT } with hs2
  have hset : setSessionData now sid st pn key v =
      (Except.ok s2, storeSet r.2 pn s2) := by
    show updateSession now r.2 (some s1) = _
    simp only [updateSession, hs1, hs2]
    rw [hphone]
    simp [hpn]
  have hg2 : storeGet pn (storeSet r.2 pn s2) = some s2 :=
    storeGet_storeSet r.2 pn s2
  have hnexp : ¬ s2.expiresAt < now := by
    rw [hs2]
    exact Nat.not_lt.mpr (Nat.le_add_right now SESSION_TIMEOUT)
  have hget : (getSessionData now sid2 (storeSet r.2 pn s2) pn key).1 =
      SVal.vnull := by
    simp [getSessionData, getOrCreateSession, hg2, hnexp, hs2, hs1,
      dataGet_dataSet, hv]
  exact ⟨s2, storeSet r.2 pn s2, hset, hget,
    fun hvn => by rw [hget]; exact fun hc => hvn hc.symm⟩

theorem get_after_set_falsy_witness :
    ∃ s2 st2,
      setSessionData 0 1 [] "9990006666" "count" (SVal.vint 0) =
        (Except.ok s2, st2) ∧
      (getSessionData 0 2 st2 "9990006666" "count").1 = SVal.vnull ∧
      (SVal.vint 0 ≠ SVal.vnull →
        (getSessionData 0 2 st2 "9990006666" "count").1 ≠ SVal.vint 0) :=
  get_after_set_falsy 0 1 2 [] "9990006666" "count" (SVal.vint 0) (by decide)
    (fun e he => absurd he (List.not_mem_nil e)) (by decide)
